import Mathlib

/-
Verification of `testkit/unittests.py`, the unit-test invocation wrapper of
the javascript driver repository.  The script selects an exclusion flag from
two boolean environment predicates and then runs a lint command followed by a
unit-test command via `run_in_driver_repo`.
-/

namespace Unittests

/-- The fixed lint command invoked on line 15 of `unittests.py`:
`run_in_driver_repo(["npm", "run", "lint"])`. -/
def lintCmd : List String := ["npm", "run", "lint"]

/-- The `ignore` flag computed by the branch on lines 10 to 13 of
`unittests.py`: if `is_lite() or is_deno()` then `"--ignore=neo4j-driver"`
else `"--ignore=neo4j-driver-lite"`. -/
def ignore (is_lite is_deno : Bool) : String :=
  if is_lite || is_deno then "--ignore=neo4j-driver"
  else "--ignore=neo4j-driver-lite"

/-- The unit-test command invoked on line 16 of `unittests.py`:
`run_in_driver_repo(["npm", "run", "test::unit", "--", ignore])`. -/
def testCmd (is_lite is_deno : Bool) : List String :=
  ["npm", "run", "test::unit", "--", ignore is_lite is_deno]

/-- Instrumented evaluation of the branch condition `is_lite() or is_deno()`
on line 10.  Python's `or` operator short-circuits, so `is_deno` is consulted
only when `is_lite` returns false.  The result pairs the condition's value
with the names of the predicates consulted, in evaluation order. -/
def evalCondition (is_lite is_deno : Bool) : Bool × List String :=
  if is_lite then (true, ["is_lite"])
  else (is_deno, ["is_lite", "is_deno"])

/-- Modelled from the spec: `run_in_driver_repo` is defined in the module
`common`, which is not among the sources; per the spec it executes one
external command inside the driver checkout and propagates any non-zero exit
status immediately as a fatal failure of the whole invocation, so a later
step runs only when every earlier step exited zero, and the overall exit
status equals that of the first failing command, or zero when all succeed.
`runMain` models the `__main__` block of `unittests.py` under this semantics:
`ec` assigns to each command the exit status it would return when executed;
the result pairs the list of commands actually invoked, in order, with the
overall exit status of the invocation. -/
def runMain (is_lite is_deno : Bool) (ec : List String → Nat) :
    List (List String) × Nat :=
  if ec lintCmd = 0 then
    ([lintCmd, testCmd is_lite is_deno], ec (testCmd is_lite is_deno))
  else
    ([lintCmd], ec lintCmd)

/-- The unit-test command is never equal to the lint command: their argument
lists have different lengths. -/
theorem testCmd_ne_lintCmd (a b : Bool) : testCmd a b ≠ lintCmd := by
  intro h
  exact absurd (congrArg List.length h) (by simp [testCmd, lintCmd])

/-- C1 counterexample: the claim states that when predicate A (lite) is true
the computed exclusion target is the lite package name.  At the concrete
input `is_lite = true, is_deno = false` the code computes
`"--ignore=neo4j-driver"`, the non-lite package, not
`"--ignore=neo4j-driver-lite"`. -/
theorem C1_claim_false_at_lite :
    ignore true false = "--ignore=neo4j-driver" ∧
    ignore true false ≠ "--ignore=neo4j-driver-lite" := by
  constructor
  · rfl
  · decide

/-- C1 (amended): when A (lite) is true, for any B, or when B (deno) is true,
the exclusion target is the non-lite package flag `"--ignore=neo4j-driver"`;
when both predicates are false it is the lite package flag
`"--ignore=neo4j-driver-lite"`. -/
theorem C1_ignore_selection :
    ignore true true = "--ignore=neo4j-driver" ∧
    ignore true false = "--ignore=neo4j-driver" ∧
    ignore false true = "--ignore=neo4j-driver" ∧
    ignore false false = "--ignore=neo4j-driver-lite" := by
  refine ⟨rfl, rfl, rfl, rfl⟩

/-- C2: for every combination of the two predicates, the derived exclusion
value is exactly one of the two fixed strings `"--ignore=neo4j-driver"` and
`"--ignore=neo4j-driver-lite"`; no third value and no absence of a value is
possible. -/
theorem C2_ignore_invariant (a b : Bool) :
    ignore a b = "--ignore=neo4j-driver" ∨
    ignore a b = "--ignore=neo4j-driver-lite" := by
  unfold ignore
  cases a <;> cases b <;> simp

/-- C3: on every invocation the command sequence actually issued is either
the lint command alone or the lint command followed by the unit-test command,
so the lint command is always issued first; the unit-test command is issued
only when the lint command exited zero; and the unit-test command carries the
computed exclusion flag as its final argument. -/
theorem C3_lint_before_test (a b : Bool) (ec : List String → Nat) :
    ((runMain a b ec).1 = [lintCmd] ∨
      (runMain a b ec).1 = [lintCmd, testCmd a b]) ∧
    (testCmd a b ∈ (runMain a b ec).1 → ec lintCmd = 0) ∧
    (testCmd a b).getLast? = some (ignore a b) := by
  unfold runMain
  by_cases h : ec lintCmd = 0
  · rw [if_pos h]
    exact ⟨Or.inr rfl, fun _ => h, rfl⟩
  · rw [if_neg h]
    refine ⟨Or.inl rfl, ?_, rfl⟩
    intro hmem
    simp at hmem
    exact absurd hmem (testCmd_ne_lintCmd a b)

/-- C3 witness: at the concrete environment where every command exits zero,
the invocation issues the lint command followed by the unit-test command. -/
theorem C3_witness :
    ((runMain false false (fun _ => 0)).1 = [lintCmd] ∨
      (runMain false false (fun _ => 0)).1 = [lintCmd, testCmd false false]) ∧
    (testCmd false false ∈ (runMain false false (fun _ => 0)).1 →
      (fun _ => 0 : List String → Nat) lintCmd = 0) ∧
    (testCmd false false).getLast? = some (ignore false false) :=
  C3_lint_before_test false false (fun _ => 0)

/-- C4: whenever the lint command exits with a non-zero status, the unit-test
command is never invoked and the overall exit status equals the lint
command's exit status. -/
theorem C4_lint_failure (a b : Bool) (ec : List String → Nat)
    (h : ec lintCmd ≠ 0) :
    (runMain a b ec).1 = [lintCmd] ∧
    testCmd a b ∉ (runMain a b ec).1 ∧
    (runMain a b ec).2 = ec lintCmd := by
  unfold runMain
  rw [if_neg h]
  refine ⟨rfl, ?_, rfl⟩
  simp
  exact testCmd_ne_lintCmd a b

/-- C4 witness: at the concrete environment where the lint command exits 2,
only the lint command is invoked and the overall exit status is 2. -/
theorem C4_witness :
    (runMain false false (fun c => if c = lintCmd then 2 else 0)).1
        = [lintCmd] ∧
    testCmd false false
        ∉ (runMain false false (fun c => if c = lintCmd then 2 else 0)).1 ∧
    (runMain false false (fun c => if c = lintCmd then 2 else 0)).2
        = (fun c => if c = lintCmd then 2 else 0) lintCmd :=
  C4_lint_failure false false (fun c => if c = lintCmd then 2 else 0)
    (by decide)

/-- C5: whenever the lint command exits zero and the unit-test command exits
with a non-zero status, the overall exit status equals the unit-test
command's exit status. -/
theorem C5_test_failure (a b : Bool) (ec : List String → Nat)
    (h1 : ec lintCmd = 0) (h2 : ec (testCmd a b) ≠ 0) :
    (runMain a b ec).2 = ec (testCmd a b) := by
  unfold runMain
  simp [h1]

/-- C5 witness: at the concrete environment where the lint command exits 0
and every other command exits 3, the overall exit status equals the unit-test
command's exit status. -/
theorem C5_witness :
    (runMain false false (fun c => if c = lintCmd then 0 else 3)).2
      = (fun c => if c = lintCmd then 0 else 3) (testCmd false false) :=
  C5_test_failure false false (fun c => if c = lintCmd then 0 else 3)
    (by decide) (by decide)

/-- C6: whenever both the lint command and the unit-test command exit zero,
the overall exit status of the invocation is zero. -/
theorem C6_success (a b : Bool) (ec : List String → Nat)
    (h1 : ec lintCmd = 0) (h2 : ec (testCmd a b) = 0) :
    (runMain a b ec).2 = 0 := by
  unfold runMain
  simp [h1, h2]

/-- C6 witness: at the concrete environment where every command exits zero,
the overall exit status is zero. -/
theorem C6_witness :
    (runMain true false (fun _ => 0)).2 = 0 :=
  C6_success true false (fun _ => 0) rfl rfl

/-- C7: the invocation is deterministic in the two environment predicates:
two runs with the same predicate values, whose external commands return the
same exit statuses on the commands actually issued, issue the same sequence
of commands with identical argument lists and end with the same overall exit
status. -/
theorem C7_deterministic (a b : Bool) (ec ec2 : List String → Nat)
    (h : ∀ c, c ∈ (runMain a b ec).1 → ec c = ec2 c) :
    runMain a b ec = runMain a b ec2 := by
  unfold runMain at h ⊢
  by_cases k : ec lintCmd = 0
  · have hl : ec2 lintCmd = 0 := by
      rw [← h lintCmd (by simp [k])]
      exact k
    have ht : ec (testCmd a b) = ec2 (testCmd a b) :=
      h (testCmd a b) (by simp [k])
    simp [k, hl, ht]
  · have hl : ec2 lintCmd = ec lintCmd := (h lintCmd (by simp [k])).symm
    simp [k, hl]

/-- C7 witness: two concrete environments that agree on the issued commands
produce identical runs. -/
theorem C7_witness :
    runMain false false (fun _ => 0)
      = runMain false false (fun c => c.length - c.length) :=
  C7_deterministic false false (fun _ => 0) (fun c => c.length - c.length)
    (fun c _ => (Nat.sub_self c.length).symm)

/-- C8: for every combination of the two predicates the lint command's
argument list is the same fixed value `["npm", "run", "lint"]`, and the
predicates influence only the final argument of the unit-test command: all
unit-test argument lists agree once the final argument is dropped, and that
common part is `["npm", "run", "test::unit", "--"]`. -/
theorem C8_frame (a b a2 b2 : Bool) :
    lintCmd = ["npm", "run", "lint"] ∧
    (testCmd a b).dropLast = (testCmd a2 b2).dropLast ∧
    (testCmd a b).dropLast = ["npm", "run", "test::unit", "--"] := by
  refine ⟨rfl, ?_, rfl⟩
  rfl

/-- C9: the branch condition short-circuits: when `is_lite` returns true the
predicate `is_deno` is never consulted; the condition's value is the
disjunction of the two predicates; and the exclusion target depends only on
that disjunction. -/
theorem C9_short_circuit (l d : Bool) :
    "is_deno" ∉ (evalCondition true d).2 ∧
    (evalCondition l d).1 = (l || d) ∧
    ignore l d = ignore (l || d) false := by
  cases l <;> cases d <;> exact ⟨by decide, rfl, rfl⟩

/-- C10: the unit-test command always has exactly five argument elements,
the fourth being the literal separator `"--"` and the fifth and final being
the computed exclusion flag. -/
theorem C10_test_args (a b : Bool) :
    (testCmd a b).length = 5 ∧
    (testCmd a b).get? 3 = some "--" ∧
    (testCmd a b).get? 4 = some (ignore a b) ∧
    (testCmd a b).getLast? = some (ignore a b) := by
  refine ⟨rfl, rfl, rfl, rfl⟩

end Unittests
